import Mathlib

/-!
Verification of the Happy Coder session runtime against its source.

The definitions below are shallow embeddings of the TypeScript source of
the repository (`happy-cli`'s `runClaude.ts` together with the shell-command
utility appended to it, `happy-app`'s `formatUsage.ts`, and the STT client
module).  Components of the repository whose source is not available
(the message queue, the special-command parser, the offline reconnection
helpers) are modelled from the specification and are marked as such in
their doc comments.
-/

namespace Happy

/-! ## `formatUsage.ts` (happy-app) -/

/-- `MAX_CONTEXT_SIZE` from `sources/utils/formatUsage.ts`. -/
def MAX_CONTEXT_SIZE : ℤ := 190000

/-- JavaScript `Math.round`: rounds half towards positive infinity,
i.e. `⌊x + 1/2⌋`. -/
def jsRound (q : ℚ) : ℤ := ⌊q + 1/2⌋

/-- `getContextRemainingPercent` from `sources/utils/formatUsage.ts`:
`percentageUsed = contextSize / MAX_CONTEXT_SIZE * 100`;
returns `Math.max(0, Math.min(100, Math.round(100 - percentageUsed)))`. -/
def getContextRemainingPercent (contextSize : ℤ) : ℤ :=
  let percentageUsed : ℚ := ((contextSize : ℚ) / (MAX_CONTEXT_SIZE : ℚ)) * 100
  max 0 (min 100 (jsRound (100 - percentageUsed)))

/-! ## `shellCommand.ts` (happy-cli utility appended to `runClaude.ts`) -/

/-- JavaScript `String.prototype.endsWith`, as a suffix test on the
character list of a string. -/
def strEndsWith (s post : String) : Bool :=
  post.data.isSuffixOf s.data

/-- `formatShellOutput` from the shell-command utility: a fenced bash code
block showing the command, stdout, stderr, and an exit-code footer when the
exit code is nonzero.  TypeScript truthiness of `if (stdout)` is empty-string
falsiness. -/
def formatShellOutput (command stdout stderr : String) (exitCode : ℤ) : String :=
  let output := "```bash\n$ " ++ command ++ "\n"
  let output := if stdout ≠ "" then
      (if strEndsWith stdout "\n" then output ++ stdout else output ++ stdout ++ "\n")
    else output
  let output := if stderr ≠ "" then
      (if strEndsWith stderr "\n" then output ++ stderr else output ++ stderr ++ "\n")
    else output
  let output := output ++ "```"
  if exitCode ≠ 0 then output ++ "\n\n*Exit code: " ++ toString exitCode ++ "*" else output

/-- Specification-side helper used only to state the claim about
`formatShellOutput`: a stream segment is included verbatim when empty and
newline-terminated otherwise. -/
def newlineTerminated (s : String) : String :=
  if s = "" then "" else if strEndsWith s "\n" then s else s ++ "\n"

/-- Specification-side restatement of the shell-output format: fenced bash
block beginning with `$ <command>`, stdout then stderr each newline
terminated, and an `*Exit code: N*` footer exactly when the exit code is
nonzero. -/
def formatShellOutputSpec (command stdout stderr : String) (exitCode : ℤ) : String :=
  "```bash\n$ " ++ command ++ "\n" ++ newlineTerminated stdout ++ newlineTerminated stderr
    ++ "```"
    ++ (if exitCode = 0 then "" else "\n\n*Exit code: " ++ toString exitCode ++ "*")

/-! ## STT client (`polishSttTranscript`) -/

/-- Outcome of the HTTP round trip performed by `polishSttTranscript`:
the `fetch` may throw, the server may answer non-ok, or it answers ok with
a JSON body whose `text` field is absent (`none`) or a string. -/
inductive PolishFetchOutcome where
  | throws : PolishFetchOutcome
  | notOk : PolishFetchOutcome
  | ok (text : Option String) : PolishFetchOutcome
deriving DecidableEq, Repr

/-- JavaScript truthiness of an optional string: `undefined`/`null` and the
empty string are falsy. -/
def truthyStr : Option String → Bool
  | none => false
  | some s => s ≠ ""

/-- `polishSttTranscript` from the STT client module, with the HTTP effect
reified as a `PolishFetchOutcome`: on throw or non-ok response it returns
`{ text }` (the input); on an ok response it returns the response when its
`text` is truthy, otherwise `{ text }`. -/
def polishSttTranscript (text : String) (outcome : PolishFetchOutcome) : String :=
  match outcome with
  | .throws => text
  | .notOk => text
  | .ok dataText => if truthyStr dataText then dataText.getD text else text

/-! ## `runClaude.ts`: modes and the message-queue fingerprint -/

/-- The permission modes of the unified mode type referenced by
`runClaude.ts` (the values evidenced in that file: `plan`, `default`,
`acceptEdits`, `bypassPermissions`, `yolo`). -/
inductive PermissionMode where
  | default
  | plan
  | acceptEdits
  | bypassPermissions
  | yolo
deriving DecidableEq, Repr

/-- The `EnhancedMode` payload pushed with each message: the resolved
permission mode, models, system-prompt overrides, tool lists and
auto-approve-plan bit, as assembled in `session.onUserMessage`. -/
structure EnhancedMode where
  permissionMode : PermissionMode
  model : Option String
  fallbackModel : Option String
  customSystemPrompt : Option String
  appendSystemPrompt : Option String
  allowedTools : Option (List String)
  disallowedTools : Option (List String)
  autoApprovePlan : Bool
deriving DecidableEq, Repr

/-- The object hashed by the queue's fingerprint function in `runClaude.ts`
(`hashObject({ isPlan, model, fallbackModel, customSystemPrompt,
appendSystemPrompt, allowedTools, disallowedTools })`).  `hashObject` is a
deterministic-JSON hash, so two modes receive the same fingerprint exactly
when they produce the same key. -/
structure FingerprintKey where
  isPlan : Bool
  model : Option String
  fallbackModel : Option String
  customSystemPrompt : Option String
  appendSystemPrompt : Option String
  allowedTools : Option (List String)
  disallowedTools : Option (List String)
deriving DecidableEq, Repr

/-- The fingerprint function passed to `MessageQueue2` in `runClaude.ts`:
note that only `isPlan := (mode.permissionMode === "plan")` of the
permission mode enters the key. -/
def modeFingerprint (mode : EnhancedMode) : FingerprintKey :=
  { isPlan := mode.permissionMode == PermissionMode.plan
  , model := mode.model
  , fallbackModel := mode.fallbackModel
  , customSystemPrompt := mode.customSystemPrompt
  , appendSystemPrompt := mode.appendSystemPrompt
  , allowedTools := mode.allowedTools
  , disallowedTools := mode.disallowedTools }

/-- Two enhanced modes fall into the same queue batch exactly when their
fingerprints agree (coalescing criterion of the message pump). -/
def sameBatch (a b : EnhancedMode) : Prop := modeFingerprint a = modeFingerprint b

instance (a b : EnhancedMode) : Decidable (sameBatch a b) := by
  unfold sameBatch; infer_instance

/-! ## Special commands and the user-message dispatch -/

/-- Result of `parseSpecialCommand`, per the special-command surface used by
`runClaude.ts`: a shell command, `/clear`, `/compact`, or a plain message. -/
inductive SpecialCommand where
  | shell (shellCommand : String)
  | clear (originalMessage : Option String)
  | compact (originalMessage : Option String)
  | plain
deriving DecidableEq, Repr

/-- Whitespace trimming on both ends, as a computation on the character
list of a string. -/
def strTrim (s : String) : String :=
  ⟨((s.data.dropWhile Char.isWhitespace).reverse.dropWhile Char.isWhitespace).reverse⟩

/-- Whether `s` starts with `p`, as a computation on character lists. -/
def strStartsWith (s p : String) : Bool :=
  p.data.isPrefixOf s.data

/-- Dropping the first `n` characters of a string. -/
def strDrop (s : String) (n : ℕ) : String :=
  ⟨s.data.drop n⟩

/-- Modelled from the spec: `parseSpecialCommand` (the source
`src/parsers/specialCommands.ts` is not available).  Per the spec,
shell-prefix commands are `$ ...` or `! ...`, and the two special commands
are clear-context (`/clear`) and compact (`/compact`). -/
def parseSpecialCommand (text : String) : SpecialCommand :=
  let trimmed := strTrim text
  if strStartsWith trimmed "$" then .shell (strTrim (strDrop trimmed 1))
  else if strStartsWith trimmed "!" then .shell (strTrim (strDrop trimmed 1))
  else if trimmed = "/clear" then .clear none
  else if trimmed = "/compact" then .compact none
  else .plain

/-- The action `session.onUserMessage` in `runClaude.ts` takes once a
message's enhanced mode is resolved. -/
inductive UserMessageAction where
  | runShell (shellCommand : String)
  | pushIsolateAndClear (text : String) (mode : EnhancedMode)
  | push (text : String) (mode : EnhancedMode)
deriving DecidableEq, Repr

/-- Dispatch of one remote user message, transcribed from the body of
`session.onUserMessage` in `runClaude.ts`: a shell special command with a
truthy command string short-circuits (the message is never pushed to the
queue); `/compact` and `/clear` are pushed with `pushIsolateAndClear`
(using `originalMessage || message.content.text`); everything else is
pushed normally. -/
def dispatchUserMessage (text : String) (mode : EnhancedMode) : UserMessageAction :=
  match parseSpecialCommand text with
  | .shell cmd => if cmd ≠ "" then .runShell cmd else .push text mode
  | .compact orig => .pushIsolateAndClear (orig.getD text) mode
  | .clear orig => .pushIsolateAndClear (orig.getD text) mode
  | .plain => .push text mode

/-! ## The message queue (`MessageQueue2`) -/

/-- A message pending in the queue: its text, its enhanced mode, and whether
it must be delivered in isolation. -/
structure QueuedMessage where
  text : String
  mode : EnhancedMode
  isolate : Bool
deriving DecidableEq, Repr

/-- Modelled from the spec: `MessageQueue2.push` (the source
`src/utils/MessageQueue2.ts` is not available) appends the message to the
pending queue with its current fingerprint. -/
def queuePush (q : List QueuedMessage) (text : String) (mode : EnhancedMode) :
    List QueuedMessage :=
  q ++ [⟨text, mode, false⟩]

/-- Modelled from the spec: `MessageQueue2.pushIsolateAndClear` (source not
available) — the two special commands "flush-and-isolate" and "discard any
queued follow-ups before themselves", so every pending message is dropped
and only the command itself remains, isolated. -/
def queuePushIsolateAndClear (_q : List QueuedMessage) (text : String)
    (mode : EnhancedMode) : List QueuedMessage :=
  [⟨text, mode, true⟩]

/-- Effect of a dispatched user-message action on the pending queue. -/
def applyAction (q : List QueuedMessage) : UserMessageAction → List QueuedMessage
  | .runShell _ => q
  | .pushIsolateAndClear text mode => queuePushIsolateAndClear q text mode
  | .push text mode => queuePush q text mode

/-! ## Shell-command execution (`executeShellCommand`) -/

/-- The `timeout` field of the `ExecOptions` used by `executeShellCommand`
(milliseconds). -/
def shellExecTimeoutMillis : ℕ := 30000

/-- The `maxBuffer` field of the `ExecOptions` used by
`executeShellCommand` (bytes). -/
def shellExecMaxBuffer : ℕ := 1024 * 1024

/-- Outcome of the `exec` subprocess run by `executeShellCommand`: either
success (with captured stdout/stderr) or a thrown exec error carrying
optional stdout, stderr, message, a numeric exit code when one exists, and
whether the process was killed or timed out (`killed || code === 'ETIMEDOUT'`). -/
inductive ExecOutcome where
  | success (stdout stderr : String)
  | failure (stdout stderr message : Option String) (code : Option ℤ) (timedOut : Bool)
deriving DecidableEq, Repr

/-- TypeScript `a || b` on an optional string against a string default. -/
def orTruthy (a : Option String) (b : String) : String :=
  if truthyStr a then a.getD b else b

/-- `executeShellCommand` from the shell-command utility, with the
subprocess reified as an `ExecOutcome`: on success it formats with exit
code 0; on a thrown error it resolves the message as
`stderr || message || "Command failed"` and the exit code as the numeric
`code` (default 1), overridden to the timeout message and −1 when the
process was killed or timed out. -/
def executeShellCommand (command : String) (outcome : ExecOutcome) : String :=
  match outcome with
  | .success stdout stderr => formatShellOutput command stdout stderr 0
  | .failure stdout stderr message code timedOut =>
    let errorMessage := orTruthy stderr (orTruthy message "Command failed")
    let exitCode := code.getD 1
    let errorMessage := if timedOut then "Command timed out (30s limit)" else errorMessage
    let exitCode := if timedOut then -1 else exitCode
    let errorStdout := if truthyStr stdout then stdout.getD "" else ""
    formatShellOutput command errorStdout errorMessage exitCode

/-- The body of the agent text message the shell branch of
`session.onUserMessage` sends back to the session log
(`createEnvelope("agent", { t: "text", text: output })` with the output of
`executeShellCommand`); `none` for the non-shell actions, which send no
agent message. -/
def shellAgentText (action : UserMessageAction) (outcome : ExecOutcome) : Option String :=
  match action with
  | .runShell cmd => some (executeShellCommand cmd outcome)
  | .pushIsolateAndClear _ _ => none
  | .push _ _ => none

/-! ## Control mode and agent state -/

/-- The control mode of a session: terminal-attached (`local`) or
phone-driven (`remote`). -/
inductive ControlMode where
  | local
  | remote
deriving DecidableEq, Repr

/-- The slice of `AgentState` the control-mode logic touches:
`controlledByUser`, absent (`none`) until first published. -/
structure AgentState where
  controlledByUser : Option Bool
deriving DecidableEq, Repr

/-- The initial agent-state update published by `runClaude` right after
session creation: `controlledByUser: options.startingMode !== "remote"`
(an absent starting mode also yields `true`). -/
def initialAgentStateUpdate (startingMode : Option ControlMode) (s : AgentState) :
    AgentState :=
  { s with controlledByUser := some (startingMode != some ControlMode.remote) }

/-- The agent-state update published by the `onModeChange` callback in
`runClaude`: `controlledByUser: newMode === "local"`. -/
def onModeChangeAgentStateUpdate (newMode : ControlMode) (s : AgentState) :
    AgentState :=
  { s with controlledByUser := some (newMode == ControlMode.local) }

/-! ## Start-option validation and process exit codes -/

/-- Who spawned the session (`startedBy`). -/
inductive StartedBy where
  | daemon
  | terminal
deriving DecidableEq, Repr

/-- The fields of `StartOptions` relevant to start-option validation. -/
structure StartOptions where
  startedBy : Option StartedBy
  startingMode : Option ControlMode
deriving DecidableEq, Repr

/-- The error message thrown by `runClaude` for the daemon/local
combination. -/
def daemonLocalError : String :=
  "Daemon-spawned sessions cannot use local/interactive mode. Use --happy-starting-mode remote or spawn sessions directly from terminal."

/-- Relay entities created during `runClaude` startup. -/
inductive CreatedEntity where
  | machine
  | session
deriving DecidableEq, Repr

/-- The entity-creating prefix of `runClaude`, transcribed from the source:
the daemon/local check throws before `getOrCreateMachine` and
`getOrCreateSession` are ever reached; on any other option combination the
machine and then the session are created. -/
def runClaudeStartEntities (o : StartOptions) : Except String (List CreatedEntity) :=
  if o.startedBy = some StartedBy.daemon ∧ o.startingMode = some ControlMode.local then
    Except.error daemonLocalError
  else
    Except.ok [CreatedEntity.machine, CreatedEntity.session]

/-- The ways `runClaude` terminates the process, one constructor per
`process.exit` site in `runClaude.ts`. -/
inductive RunOutcome where
  | missingMachineId
  | serverUnreachableAtStart
  | signalCleanupOk
  | signalCleanupError
  | loopFinished (code : ℤ)
deriving DecidableEq, Repr

/-- The exit code `runClaude` passes to `process.exit` for each
termination path: `1` when no machine id is found in settings, `0` when the
server is unreachable at start (the offline local run finishes and exits
normally), `0`/`1` for the signal-cleanup paths, and the assistant loop's
own exit code otherwise. -/
def runClaudeExitCode : RunOutcome → ℤ
  | .missingMachineId => 1
  | .serverUnreachableAtStart => 0
  | .signalCleanupOk => 0
  | .signalCleanupError => 1
  | .loopFinished code => code

/-- Modelled from the spec: the authentication onboarding flow (outside the
available sources) exits with code 2 on authentication failure. -/
def authFailureExitCode : ℤ := 2

/-! ## Offline start and reconnection seeding -/

/-- Modelled from the spec: the session scanner (`createSessionScanner`,
source not available) watches the assistant's on-disk session files;
`onNewSession id` delivers every message of session `id`'s file through the
`onMessage` callback, and a scanner that was never notified of a session
delivers nothing. -/
def scannerDelivered (disk : String → List String) : Option String → List String
  | none => []
  | some id => disk id

/-- The observable actions of the offline branch of `runClaude`,
transcribed from the source: the tag under which `onReconnected` recreates
the session, the session id the scanner is created with (`sessionId: null`),
the session id the scanner is notified of (`scanner.onNewSession(offlineSessionId)`
when the local run discovered one), and whether the assistant child ran
locally via `claudeLocal` in the meantime. -/
structure OfflineReconnectResult where
  sessionTag : String
  scannerInitialSessionId : Option String
  scannerNotified : Option String
  childRanLocally : Bool
deriving DecidableEq, Repr

/-- The offline branch of `runClaude` (taken when `getOrCreateSession`
returns no response): `claudeLocal` runs the child with `sessionId: null`;
on reconnect a session is created under a fresh `randomUUID()` tag, the
scanner starts from `sessionId: null`, and is notified of the offline
session id when one was found. -/
def offlineReconnect (freshTag : String) (offlineSessionId : Option String) :
    OfflineReconnectResult :=
  { sessionTag := freshTag
  , scannerInitialSessionId := none
  , scannerNotified := offlineSessionId
  , childRanLocally := true }

/-- The messages seeded into the freshly created session on reconnect:
whatever the scanner delivers for the session id it was notified of. -/
def offlineSeededMessages (disk : String → List String) (freshTag : String)
    (offlineSessionId : Option String) : List String :=
  scannerDelivered disk (offlineReconnect freshTag offlineSessionId).scannerNotified

/-! ## Theorems -/

/-- A concrete enhanced mode used by the witnesses. -/
def sampleMode : EnhancedMode :=
  ⟨PermissionMode.default, none, none, none, none, none, none, false⟩

/-- Claim C1: a remote user message whose text is a shell-prefix command
(`$ ...` or `! ...`) is short-circuited by the session runtime: it is never
pushed to the assistant's message queue, the command is executed in a
subprocess bounded by the 30000 ms exec timeout, and the formatted output of
`executeShellCommand` is sent back to the session message log as an agent
text message. -/
theorem shell_short_circuit (text : String) (mode : EnhancedMode) (cmd : String)
    (q : List QueuedMessage) (outcome : ExecOutcome)
    (hp : parseSpecialCommand text = SpecialCommand.shell cmd) (hne : cmd ≠ "") :
    dispatchUserMessage text mode = UserMessageAction.runShell cmd
    ∧ applyAction q (dispatchUserMessage text mode) = q
    ∧ shellAgentText (dispatchUserMessage text mode) outcome
        = some (executeShellCommand cmd outcome)
    ∧ shellExecTimeoutMillis = 30000 := by
  unfold dispatchUserMessage
  rw [hp]
  simp [hne, applyAction, shellAgentText, shellExecTimeoutMillis]

/-- Witness for C1 at the concrete message `"$ echo hi"` with a queued
message pending and a successful subprocess run. -/
theorem shell_short_circuit_witness :
    parseSpecialCommand "$ echo hi" = SpecialCommand.shell "echo hi"
    ∧ "echo hi" ≠ ""
    ∧ (dispatchUserMessage "$ echo hi" sampleMode = UserMessageAction.runShell "echo hi"
      ∧ applyAction [⟨"queued", sampleMode, false⟩] (dispatchUserMessage "$ echo hi" sampleMode)
          = [⟨"queued", sampleMode, false⟩]
      ∧ shellAgentText (dispatchUserMessage "$ echo hi" sampleMode) (ExecOutcome.success "hi\n" "")
          = some (executeShellCommand "echo hi" (ExecOutcome.success "hi\n" ""))
      ∧ shellExecTimeoutMillis = 30000) :=
  ⟨by decide, by decide,
    shell_short_circuit "$ echo hi" sampleMode "echo hi" [⟨"queued", sampleMode, false⟩]
      (ExecOutcome.success "hi\n" "") (by decide) (by decide)⟩

/-- Equality of the `x == plan` flags is equivalent to agreement on being
the plan mode. -/
lemma beq_plan_eq_iff (x y : PermissionMode) :
    ((x == PermissionMode.plan) = (y == PermissionMode.plan))
      ↔ (x = PermissionMode.plan ↔ y = PermissionMode.plan) := by
  cases x <;> cases y <;> simp

/-- Claim C2 (amended): two enhanced modes receive the same queue
fingerprint iff they agree on whether the permission mode is `plan`, and on
the model, fallback model, system-prompt overrides, and allowed/disallowed
tool lists — the permission mode itself beyond the plan bit does not enter
the fingerprint. -/
theorem modeFingerprint_eq_iff (m₁ m₂ : EnhancedMode) :
    sameBatch m₁ m₂ ↔
      ((m₁.permissionMode = PermissionMode.plan ↔ m₂.permissionMode = PermissionMode.plan)
        ∧ m₁.model = m₂.model
        ∧ m₁.fallbackModel = m₂.fallbackModel
        ∧ m₁.customSystemPrompt = m₂.customSystemPrompt
        ∧ m₁.appendSystemPrompt = m₂.appendSystemPrompt
        ∧ m₁.allowedTools = m₂.allowedTools
        ∧ m₁.disallowedTools = m₂.disallowedTools) := by
  unfold sameBatch modeFingerprint
  rw [FingerprintKey.mk.injEq]
  rw [beq_plan_eq_iff]

/-- Counterexample to claim C2 as stated: the modes `default` and
`acceptEdits` (all other components equal) differ on the permission mode
yet receive the same fingerprint, so such a message does not start a new
batch. -/
theorem modeFingerprint_ignores_permission_detail :
    sameBatch
      ⟨PermissionMode.default, none, none, none, none, none, none, false⟩
      ⟨PermissionMode.acceptEdits, none, none, none, none, none, none, false⟩
    ∧ (⟨PermissionMode.default, none, none, none, none, none, none, false⟩ : EnhancedMode).permissionMode
        ≠ (⟨PermissionMode.acceptEdits, none, none, none, none, none, none, false⟩ : EnhancedMode).permissionMode := by
  decide

/-- Claim C3: processing a `/clear` or `/compact` command discards every
queued message ahead of it and leaves exactly the command itself, isolated,
in the queue. -/
theorem clear_compact_flush_isolate (text : String) (mode : EnhancedMode)
    (q : List QueuedMessage) (orig : Option String)
    (h : parseSpecialCommand text = SpecialCommand.clear orig
      ∨ parseSpecialCommand text = SpecialCommand.compact orig) :
    applyAction q (dispatchUserMessage text mode) = [⟨orig.getD text, mode, true⟩] := by
  unfold dispatchUserMessage
  rcases h with h | h <;> rw [h] <;> rfl

/-- Witness for C3 at the concrete command `"/clear"` with two queued
messages pending. -/
theorem clear_compact_flush_isolate_witness :
    (parseSpecialCommand "/clear" = SpecialCommand.clear none
      ∨ parseSpecialCommand "/clear" = SpecialCommand.compact none)
    ∧ applyAction [⟨"one", sampleMode, false⟩, ⟨"two", sampleMode, false⟩]
        (dispatchUserMessage "/clear" sampleMode)
      = [⟨"/clear", sampleMode, true⟩] :=
  ⟨Or.inl (by decide),
    clear_compact_flush_isolate "/clear" sampleMode
      [⟨"one", sampleMode, false⟩, ⟨"two", sampleMode, false⟩] none (Or.inl (by decide))⟩

/-- Claim C4: the formatted shell output is the fenced bash block beginning
with `$ <command>` followed by stdout then stderr, each included only when
nonempty and then newline-terminated, with an `*Exit code: N*` footer
exactly when the exit code is nonzero; the exit-code-0 output is the bare
fenced block with no footer. -/
theorem formatShellOutput_fenced_block (c out err : String) (ec : ℤ) :
    formatShellOutput c out err ec = formatShellOutputSpec c out err ec
    ∧ (∀ s : String, newlineTerminated s = "" ∨ strEndsWith (newlineTerminated s) "\n" = true)
    ∧ formatShellOutputSpec c out err 0
        = "```bash\n$ " ++ c ++ "\n" ++ newlineTerminated out ++ newlineTerminated err ++ "```" := by
  refine ⟨?_, ?_, ?_⟩
  · unfold formatShellOutput formatShellOutputSpec newlineTerminated
    by_cases h1 : out = "" <;> by_cases h2 : err = "" <;>
      by_cases h5 : ec = 0 <;>
      simp only [h1, h2, h5, if_true, if_false, ite_true, ite_false, ne_eq,
        not_true_eq_false, not_false_eq_true, String.append_empty, String.append_assoc] <;>
      split_ifs <;> simp [String.append_assoc, String.append_empty]
  · intro s
    unfold newlineTerminated
    by_cases h : s = ""
    · exact Or.inl (by simp [h])
    · right
      by_cases h2 : strEndsWith s "\n"
      · simp [h, h2]
      · simp only [h, h2, if_false, ite_false]
        cases s with
        | mk l =>
          simp [strEndsWith, List.isSuffixOf, String.append, List.isPrefixOf]
  · unfold formatShellOutputSpec
    simp [String.append_assoc]

/-- Claim C5: the control-mode bit published in `agentState.controlledByUser`
is `true` at session start exactly when the starting mode is not `remote`,
and after every mode change it equals `newMode == local`. -/
theorem controlledByUser_tracks_mode (startingMode : Option ControlMode)
    (newMode : ControlMode) (s t : AgentState) :
    ((initialAgentStateUpdate startingMode s).controlledByUser = some true
      ↔ startingMode ≠ some ControlMode.remote)
    ∧ (onModeChangeAgentStateUpdate newMode t).controlledByUser
        = some (newMode == ControlMode.local) := by
  constructor
  · unfold initialAgentStateUpdate
    simp [bne_iff_ne]
  · rfl

/-- Claim C6: when session creation fails at start, the assistant child
runs locally; on reconnect the session is recreated under the fresh random
tag (distinct from the original), the scanner starts from no session id,
and the conversation is seeded with exactly the messages of the assistant's
on-disk session file for the discovered offline session id. -/
theorem offline_reconnect_seeds_from_disk (disk : String → List String)
    (freshTag originalTag id : String) (h : freshTag ≠ originalTag) :
    (offlineReconnect freshTag (some id)).sessionTag ≠ originalTag
    ∧ (offlineReconnect freshTag (some id)).childRanLocally = true
    ∧ (offlineReconnect freshTag (some id)).scannerInitialSessionId = none
    ∧ offlineSeededMessages disk freshTag (some id) = disk id :=
  ⟨h, rfl, rfl, rfl⟩

/-- Witness for C6 at a concrete disk state, tags, and offline session id. -/
theorem offline_reconnect_seeds_witness :
    ("tag-b" : String) ≠ "tag-a"
    ∧ ((offlineReconnect "tag-b" (some "sid")).sessionTag ≠ "tag-a"
      ∧ (offlineReconnect "tag-b" (some "sid")).childRanLocally = true
      ∧ (offlineReconnect "tag-b" (some "sid")).scannerInitialSessionId = none
      ∧ offlineSeededMessages (fun _ => ["m1", "m2"]) "tag-b" (some "sid") = ["m1", "m2"]) :=
  ⟨by decide,
    offline_reconnect_seeds_from_disk (fun _ => ["m1", "m2"]) "tag-b" "tag-a" "sid" (by decide)⟩

/-- Counterexample to claim C7 as stated: when the server is unreachable at
session start, `runClaude` runs the assistant locally and exits with code 0,
not 3. -/
theorem serverUnreachable_exit_is_zero :
    runClaudeExitCode RunOutcome.serverUnreachableAtStart = 0
    ∧ runClaudeExitCode RunOutcome.serverUnreachableAtStart ≠ 3 := by
  decide

/-- Claim C7 (amended): the exit code is 0 on normal exit and also on the
server-unreachable-at-start path (after the offline local run finishes),
1 on fatal errors (missing machine id, cleanup failure), the assistant
loop's own code otherwise, and 2 on authentication failure (per the spec,
outside this module). -/
theorem runClaude_exit_codes (c : ℤ) :
    runClaudeExitCode RunOutcome.signalCleanupOk = 0
    ∧ runClaudeExitCode RunOutcome.serverUnreachableAtStart = 0
    ∧ runClaudeExitCode RunOutcome.missingMachineId = 1
    ∧ runClaudeExitCode RunOutcome.signalCleanupError = 1
    ∧ runClaudeExitCode (RunOutcome.loopFinished c) = c
    ∧ authFailureExitCode = 2 :=
  ⟨rfl, rfl, rfl, rfl, rfl, rfl⟩

/-- Claim C8: a start-options value with `startedBy = daemon` and
`startingMode = local` makes `runClaude` throw before any machine or
session entity is created. -/
theorem daemon_local_rejected (o : StartOptions)
    (h₁ : o.startedBy = some StartedBy.daemon)
    (h₂ : o.startingMode = some ControlMode.local) :
    runClaudeStartEntities o = Except.error daemonLocalError
    ∧ ∀ l, runClaudeStartEntities o ≠ Except.ok l := by
  unfold runClaudeStartEntities
  rw [if_pos ⟨h₁, h₂⟩]
  exact ⟨rfl, fun l h => by cases h⟩

/-- Witness for C8 at the concrete daemon/local option combination. -/
theorem daemon_local_rejected_witness :
    (⟨some StartedBy.daemon, some ControlMode.local⟩ : StartOptions).startedBy = some StartedBy.daemon
    ∧ (runClaudeStartEntities ⟨some StartedBy.daemon, some ControlMode.local⟩
          = Except.error daemonLocalError
      ∧ ∀ l, runClaudeStartEntities ⟨some StartedBy.daemon, some ControlMode.local⟩ ≠ Except.ok l) :=
  ⟨rfl, daemon_local_rejected ⟨some StartedBy.daemon, some ControlMode.local⟩ rfl rfl⟩

/-- Claim C9: `polishSttTranscript` degrades to identity on every failure
path — a thrown request, a non-ok response, and a response with a missing
or empty `text` all return the original input text unchanged. -/
theorem polishSttTranscript_identity_on_failure (text : String) :
    polishSttTranscript text PolishFetchOutcome.throws = text
    ∧ polishSttTranscript text PolishFetchOutcome.notOk = text
    ∧ polishSttTranscript text (PolishFetchOutcome.ok none) = text
    ∧ polishSttTranscript text (PolishFetchOutcome.ok (some "")) = text :=
  ⟨rfl, rfl, rfl, rfl⟩

/-- Claim C10: for every integer context size, `getContextRemainingPercent`
returns an integer in the inclusive range 0..100, equal to the rounded
percentage of context remaining out of `MAX_CONTEXT_SIZE = 190000`, clamped
to that range. -/
theorem getContextRemainingPercent_clamped (c : ℤ) :
    0 ≤ getContextRemainingPercent c
    ∧ getContextRemainingPercent c ≤ 100
    ∧ getContextRemainingPercent c
        = max 0 (min 100 (jsRound (((MAX_CONTEXT_SIZE - c : ℤ) : ℚ) * 100 / (MAX_CONTEXT_SIZE : ℚ)))) := by
  refine ⟨le_max_left 0 _, max_le (by norm_num) (min_le_left _ _), ?_⟩
  show max 0 (min 100 (jsRound (100 - ((c : ℚ) / (MAX_CONTEXT_SIZE : ℚ)) * 100)))
      = max 0 (min 100 (jsRound (((MAX_CONTEXT_SIZE - c : ℤ) : ℚ) * 100 / (MAX_CONTEXT_SIZE : ℚ))))
  have h : (100 : ℚ) - ((c : ℚ) / (MAX_CONTEXT_SIZE : ℚ)) * 100
      = ((MAX_CONTEXT_SIZE - c : ℤ) : ℚ) * 100 / (MAX_CONTEXT_SIZE : ℚ) := by
    unfold MAX_CONTEXT_SIZE
    push_cast
    field_simp
    ring
  rw [h]

end Happy
